import Mathlib

/-!
Shallow embedding of the lunar-birthdays repository (two Python pipelines:
`lunar_birthdays.py`, the batch pipeline, and `main.py`, the single-conversion
pipeline) together with proofs of the specified properties.

Modelling conventions:
* Python `int` values become `Int`.
* A solar date is modelled as an ordinal day number (`Int`); the Python
  expression `solar_date.to_date() + timedelta(days=1)` becomes `d + 1`.
* The external converter `Converter.Lunar2Solar(Lunar(y, m, d, isleap=False))`
  is a parameter `proj : Int → Int → Int → Option Int` taking the lunar year,
  month and day (the leap flag is fixed to false in both pipelines, so it is
  dropped); a `DateNotExist` exception is `none`.
* `datetime.now()` is a parameter `now : Int`.
* Python `range(a, b, s)` for a positive step `s` is `pyRangeAux` with fuel;
  `range(a, b)` (step 1) is `intRangeIncl a (b - 1)`.
* `print` output is collected into lists of strings; `sys.exit(1)` after a
  load failure becomes an `Except` error that the `main` model turns into
  exit code 1 with no files written.
-/

/-- Model of a parsed birthday record: the dict
`{name, year: int(...), month: int(...), day: int(...)}` built by
`read_lunar_birthdays`. -/
structure Birthday where
  name : String
  year : Int
  month : Int
  day : Int
deriving DecidableEq

/-- Model of an `icalendar` `Event` as the fields the code adds to it.
The batch pipeline leaves `rrule := none` (the `rrule` line is commented
out there); the single-conversion pipeline sets `rrule := some "yearly"`. -/
structure Event where
  summary : String
  dtstart : Int
  dtend : Int
  rrule : Option String
  dtstamp : Int
deriving DecidableEq

/-- Model of an `icalendar` `Calendar` built by `generate_ics`: the four
metadata fields plus the ordered list of added components. -/
structure Calendar where
  prodid : String
  version : String
  calscale : String
  charset : String
  events : List Event
deriving DecidableEq

/-- Model of a raw CSV row as seen by `csv.DictReader`: the four string
fields of a `BirthdayRow`. -/
structure RawRow where
  name : String
  year : String
  month : String
  day : String
deriving DecidableEq

/-- Model of the input file handed to `read_lunar_birthdays`: either the
file is missing (`FileNotFoundError` on `open`) or it parses into rows. -/
inductive CsvFile where
  | missing : CsvFile
  | rows : List RawRow → CsvFile
deriving DecidableEq

/-- The two fatal load failures of `read_lunar_birthdays`:
`FileNotFoundError` and `ValueError` from `int(...)`. -/
inductive LoadError where
  | fileNotFound : LoadError
  | invalidData : LoadError
deriving DecidableEq

/-- Accumulator loop for a run of decimal digits; any non-digit character
makes the whole numeral invalid. -/
def digitsToNatAux : List Char → Nat → Option Nat
  | [], acc => some acc
  | c :: cs, acc =>
    if c.isDigit then digitsToNatAux cs (acc * 10 + (c.toNat - 48)) else none

/-- A non-empty run of decimal digits as a natural number. -/
def digitsToNat : List Char → Option Nat
  | [] => none
  | c :: cs => digitsToNatAux (c :: cs) 0

/-- Model of the Python `int()` builtin applied to a CSV field: an optional
sign followed by one or more decimal digits (a simplified model of the
external builtin; the pipelines only use its two outcomes, a value or a
`ValueError`). -/
def pyInt (s : String) : Option Int :=
  match s.data with
  | '-' :: cs => (digitsToNat cs).map (fun n => -(n : Int))
  | '+' :: cs => (digitsToNat cs).map (fun n => (n : Int))
  | cs => (digitsToNat cs).map (fun n => (n : Int))

/-- Parse one CSV row the way `read_lunar_birthdays` does: `int()` applied
to the year, month and day strings, the name taken verbatim; the first
failing field raises `ValueError`. -/
def parseRow (r : RawRow) : Except LoadError Birthday :=
  match pyInt r.year, pyInt r.month, pyInt r.day with
  | some y, some m, some d => .ok { name := r.name, year := y, month := m, day := d }
  | _, _, _ => .error .invalidData

/-- The row loop of `read_lunar_birthdays`: rows are parsed in order and a
`ValueError` aborts the whole load with no partial result. -/
def loadRows : List RawRow → Except LoadError (List Birthday)
  | [] => .ok []
  | r :: rest =>
    match parseRow r with
    | .error e => .error e
    | .ok b =>
      match loadRows rest with
      | .error e => .error e
      | .ok bs => .ok (b :: bs)

/-- `read_lunar_birthdays` (identical in both pipelines): a missing file or
any unparsable numeric field is a fatal error; otherwise the full record
list is returned. -/
def read_lunar_birthdays : CsvFile → Except LoadError (List Birthday)
  | .missing => .error .fileNotFound
  | .rows rs => loadRows rs

/-- Python `range(a, b + 1)`, the inclusive year range used by
`generate_ics`: the integers from `a` to `b`. -/
def intRangeIncl (a b : Int) : List Int :=
  (List.range (b + 1 - a).toNat).map (fun (i : Nat) => a + (i : Int))

/-- Python `range(a, b, s)` for a positive step `s`, as used by the window
loop in `main` (`s` is `--batch-size`). The fuel bounds the iteration count;
any fuel at least `b - a` is enough when `1 ≤ s`. -/
def pyRangeAux : Nat → Int → Int → Int → List Int
  | 0, _, _, _ => []
  | fuel + 1, a, b, s => if a < b then a :: pyRangeAux fuel (a + s) b s else []

namespace LunarBirthdays

/-- `create_birthday_event` of `lunar_birthdays.py`: project
`Lunar(year, month, day, isleap=False)` to a solar date, then build the
event; `DateNotExist` (projection `none`) propagates to the caller. The
`rrule` line is commented out in this pipeline, hence `rrule := none`. -/
def create_birthday_event (proj : Int → Int → Int → Option Int) (now : Int)
    (b : Birthday) (year : Int) : Option Event :=
  (proj year b.month b.day).map (fun d =>
    { summary := b.name ++ "\x27s birthday", dtstart := d, dtend := d + 1,
      rrule := none, dtstamp := now })

/-- The warning printed by `generate_ics` on `DateNotExist`. Note the code
interpolates `birthday[\x27year\x27]`, the lunar birth year stored in the
record, not the loop year being projected. -/
def warningFor (b : Birthday) : String :=
  "Warning: Invalid lunar date: " ++ toString b.year ++ "-"
    ++ toString b.month ++ "-" ++ toString b.day

/-- The inner year loop of `generate_ics` for one record: each year is
projected; a success appends an event, a `DateNotExist` prints a warning
and continues. Returns the events and the warnings in emission order. -/
def eventsForYears (proj : Int → Int → Int → Option Int) (now : Int)
    (b : Birthday) : List Int → List Event × List String
  | [] => ([], [])
  | y :: ys =>
    let rest := eventsForYears proj now b ys
    match create_birthday_event proj now b y with
    | some ev => (ev :: rest.1, rest.2)
    | none => (rest.1, warningFor b :: rest.2)

/-- The outer record loop of `generate_ics`: records in order, the full
year list for each. -/
def genAll (proj : Int → Int → Int → Option Int) (now : Int) :
    List Birthday → List Int → List Event × List String
  | [], _ => ([], [])
  | b :: bs, ys =>
    let p := eventsForYears proj now b ys
    let q := genAll proj now bs ys
    (p.1 ++ q.1, p.2 ++ q.2)

/-- `generate_ics` of `lunar_birthdays.py`: build the calendar with its
fixed metadata, run the two nested loops over
`range(start_year, end_year + 1)`, and return the calendar (always written
to the output file afterwards) together with the printed warnings. -/
def generate_ics (proj : Int → Int → Int → Option Int) (now : Int)
    (birthdays : List Birthday) (start_year end_year : Int) :
    Calendar × List String :=
  let r := genAll proj now birthdays (intRangeIncl start_year end_year)
  ({ prodid := "-//Haeward//Lunar Birthdays//CN", version := "2.0",
     calscale := "GREGORIAN", charset := "UTF-8", events := r.1 }, r.2)

/-- The year windows of the loop in `main`: for each loop year `y` of
`range(start_year, start_year + years, batch_size)` the pair
`(y, min (y + batch_size - 1) (start_year + years - 1))`. -/
def mainWindows (start_year years batch_size : Int) : List (Int × Int) :=
  (pyRangeAux years.toNat start_year (start_year + years) batch_size).map
    (fun y => (y, min (y + batch_size - 1) (start_year + years - 1)))

/-- The output file name chosen by `main` for one window: a bare year when
the window is a single year, a dashed range otherwise. -/
def outputName (pre : String) (year end_year : Int) : String :=
  if year = end_year then
    pre ++ "_" ++ toString year ++ ".ics"
  else
    pre ++ "_" ++ toString year ++ "-" ++ toString end_year ++ ".ics"

/-- The window loop of `main`: one `generate_ics` call and one written file
per loop year; returns the (file name, calendar) pairs in order. -/
def mainRun (proj : Int → Int → Int → Option Int) (now : Int)
    (birthdays : List Birthday) (pre : String)
    (start_year years batch_size : Int) : List (String × Calendar) :=
  (pyRangeAux years.toNat start_year (start_year + years) batch_size).map
    (fun y =>
      let e := min (y + batch_size - 1) (start_year + years - 1)
      (outputName pre y e, (generate_ics proj now birthdays y e).1))

/-- Outcome of one full run of `main`: the process exit status and the
files written. -/
structure RunOutcome where
  exitCode : Nat
  files : List (String × Calendar)
deriving DecidableEq

/-- `main` of `lunar_birthdays.py`: load the CSV (a load failure exits with
status 1 before any file is written), then run the window loop and exit 0. -/
def mainFull (proj : Int → Int → Int → Option Int) (now : Int) (f : CsvFile)
    (pre : String) (start_year years batch_size : Int) : RunOutcome :=
  match read_lunar_birthdays f with
  | .error _ => { exitCode := 1, files := [] }
  | .ok bs =>
    { exitCode := 0,
      files := mainRun proj now bs pre start_year years batch_size }

end LunarBirthdays

namespace MainPy

/-- `create_birthday_event` of `main.py`: the lunar reference is built from
the per-record `year` field (`Lunar(birthday[\x27year\x27], month, day,
isleap=False)`), and the event carries `rrule = {freq: yearly}`. -/
def create_birthday_event (proj : Int → Int → Int → Option Int) (now : Int)
    (b : Birthday) : Option Event :=
  (proj b.year b.month b.day).map (fun d =>
    { summary := b.name ++ "\x27s birthday", dtstart := d, dtend := d + 1,
      rrule := some "yearly", dtstamp := now })

/-- The record loop of `generate_ics_file`: one projection attempt per
record; `DateNotExist` prints a warning and continues. -/
def genRecords (proj : Int → Int → Int → Option Int) (now : Int) :
    List Birthday → List Event × List String
  | [] => ([], [])
  | b :: bs =>
    let rest := genRecords proj now bs
    match create_birthday_event proj now b with
    | some ev => (ev :: rest.1, rest.2)
    | none => (rest.1, LunarBirthdays.warningFor b :: rest.2)

/-- Model of the `Calendar` built by `generate_ics_file` of `main.py`
(only `prodid` and `version` metadata in this pipeline). -/
structure CalendarS where
  prodid : String
  version : String
  events : List Event
deriving DecidableEq

/-- `generate_ics_file` of `main.py`: fixed metadata plus one loop over the
records; the calendar is always written afterwards. -/
def generate_ics_file (proj : Int → Int → Int → Option Int) (now : Int)
    (birthdays : List Birthday) : CalendarS × List String :=
  let r := genRecords proj now birthdays
  ({ prodid := "-//Haeward//Lunar Birthdays//CN", version := "2.0",
     events := r.1 }, r.2)

end MainPy

/-! ### Range and window lemmas -/

/-- An empty inclusive range. -/
lemma intRangeIncl_eq_nil (a b : Int) (h : b < a) : intRangeIncl a b = [] := by
  unfold intRangeIncl
  have h0 : (b + 1 - a).toNat = 0 := by omega
  rw [h0]
  rfl

/-- Splitting an inclusive integer range at an interior point. -/
lemma intRangeIncl_append (a c d : Int) (h1 : a ≤ c) (h2 : c ≤ d + 1) :
    intRangeIncl a (c - 1) ++ intRangeIncl c d = intRangeIncl a d := by
  unfold intRangeIncl
  have hm : c - 1 + 1 - a = c - a := by ring
  rw [hm]
  have hmn : (d + 1 - a).toNat = (c - a).toNat + (d + 1 - c).toNat := by omega
  rw [hmn, List.range_add, List.map_append, List.map_map]
  congr 1
  apply List.map_congr_left
  intro i _
  simp only [Function.comp_apply]
  omega

/-- Every loop year produced by the window loop is below the stop bound. -/
lemma pyRangeAux_mem_lt :
    ∀ (fuel : Nat) (a b s y : Int), y ∈ pyRangeAux fuel a b s → y < b := by
  intro fuel
  induction fuel with
  | zero => intro a b s y h; simp [pyRangeAux] at h
  | succ n ih =>
    intro a b s y h
    simp only [pyRangeAux] at h
    split at h
    · rcases List.mem_cons.mp h with h1 | h2
      · subst h1; assumption
      · exact ih (a + s) b s y h2
    · simp at h

/-- The windows generated from the loop years tile the full requested
range: concatenating their year ranges, in order, yields exactly the
range from the loop start to one before the stop bound. -/
lemma pyWindows_flatten (fuel : Nat) :
    ∀ (a b s : Int), 0 < s → b - a ≤ (fuel : Int) →
    ((pyRangeAux fuel a b s).map
        (fun y => intRangeIncl y (min (y + s - 1) (b - 1)))).flatten
      = intRangeIncl a (b - 1) := by
  induction fuel with
  | zero =>
    intro a b s _ hf
    simp only [pyRangeAux, List.map_nil, List.flatten_nil]
    exact (intRangeIncl_eq_nil _ _ (by omega)).symm
  | succ n ih =>
    intro a b s hs hf
    simp only [pyRangeAux]
    split
    case isTrue hab =>
      simp only [List.map_cons, List.flatten_cons]
      rw [ih (a + s) b s hs (by omega)]
      by_cases hc : a + s ≤ b
      · have hmin : min (a + s - 1) (b - 1) = a + s - 1 := by omega
        rw [hmin]
        exact intRangeIncl_append a (a + s) (b - 1) (by omega) (by omega)
      · have hmin : min (a + s - 1) (b - 1) = b - 1 := by omega
        rw [hmin, intRangeIncl_eq_nil (a + s) (b - 1) (by omega),
          List.append_nil]
    case isFalse hab =>
      simp only [List.map_nil, List.flatten_nil]
      exact (intRangeIncl_eq_nil _ _ (by omega)).symm

/-- Claim C1: for every startYear, totalYears > 0 and batchSize > 0, the
window loop of `main` partitions the inclusive range from startYear to
startYear + totalYears - 1 into contiguous, non-overlapping windows that
cover it exactly once (their concatenated year ranges equal the full
range), each window spanning at most batchSize years; for
startYear = 2024, totalYears = 120, batchSize = 50 the windows are
(2024, 2073), (2074, 2123), (2124, 2143). -/
theorem fileBatcher_partitions (start_year years batch_size : Int)
    (hy : 0 < years) (hb : 0 < batch_size) :
    ((LunarBirthdays.mainWindows start_year years batch_size).map
        (fun w => intRangeIncl w.1 w.2)).flatten
      = intRangeIncl start_year (start_year + years - 1)
    ∧ (∀ w ∈ LunarBirthdays.mainWindows start_year years batch_size,
        w.1 ≤ w.2 ∧ w.2 - w.1 + 1 ≤ batch_size)
    ∧ LunarBirthdays.mainWindows 2024 120 50
        = [(2024, 2073), (2074, 2123), (2124, 2143)] := by
  refine ⟨?_, ?_, by decide⟩
  · unfold LunarBirthdays.mainWindows
    rw [List.map_map]
    exact pyWindows_flatten years.toNat start_year (start_year + years)
      batch_size hb (by omega)
  · intro w hw
    unfold LunarBirthdays.mainWindows at hw
    rcases List.mem_map.mp hw with ⟨y, hmem, rfl⟩
    have hlt := pyRangeAux_mem_lt years.toNat start_year
      (start_year + years) batch_size y hmem
    dsimp only
    omega

/-- Concrete instance of the window partition property at
startYear = 1, totalYears = 5, batchSize = 2. -/
theorem fileBatcher_partitions_witness :
    ((LunarBirthdays.mainWindows 1 5 2).map
        (fun w => intRangeIncl w.1 w.2)).flatten = intRangeIncl 1 (1 + 5 - 1) :=
  (fileBatcher_partitions 1 5 2 (by decide) (by decide)).1

/-! ### Generator lemmas -/

/-- The events collected by the inner year loop are exactly the successful
projections, one per succeeding year, in year order. -/
lemma eventsForYears_fst (proj : Int → Int → Int → Option Int) (now : Int)
    (b : Birthday) : ∀ ys : List Int,
    (LunarBirthdays.eventsForYears proj now b ys).1
      = ys.filterMap (LunarBirthdays.create_birthday_event proj now b) := by
  intro ys
  induction ys with
  | nil => rfl
  | cons y ys ih =>
    cases h : LunarBirthdays.create_birthday_event proj now b y with
    | none =>
      simp [LunarBirthdays.eventsForYears, h, List.filterMap_cons_none h, ih]
    | some ev =>
      simp [LunarBirthdays.eventsForYears, h, List.filterMap_cons_some h, ih]

/-- The warnings printed by the inner year loop: one per failing year, in
year order, each built from the record alone. -/
lemma eventsForYears_snd (proj : Int → Int → Int → Option Int) (now : Int)
    (b : Birthday) : ∀ ys : List Int,
    (LunarBirthdays.eventsForYears proj now b ys).2
      = ys.filterMap (fun y =>
          if (proj y b.month b.day).isSome then none
          else some (LunarBirthdays.warningFor b)) := by
  intro ys
  induction ys with
  | nil => rfl
  | cons y ys ih =>
    cases h : proj y b.month b.day with
    | none =>
      simp [LunarBirthdays.eventsForYears,
        LunarBirthdays.create_birthday_event, h, ih]
    | some d =>
      simp [LunarBirthdays.eventsForYears,
        LunarBirthdays.create_birthday_event, h, ih]

/-- The record loop concatenates the per-record event lists in record
order. -/
lemma genAll_fst (proj : Int → Int → Int → Option Int) (now : Int) :
    ∀ (bs : List Birthday) (ys : List Int),
    (LunarBirthdays.genAll proj now bs ys).1
      = bs.flatMap (fun b =>
          ys.filterMap (LunarBirthdays.create_birthday_event proj now b)) := by
  intro bs ys
  induction bs with
  | nil => rfl
  | cons b bs ih =>
    simp [LunarBirthdays.genAll, eventsForYears_fst, ih, List.flatMap_cons]

/-- The record loop concatenates the per-record warning lists in record
order. -/
lemma genAll_snd (proj : Int → Int → Int → Option Int) (now : Int) :
    ∀ (bs : List Birthday) (ys : List Int),
    (LunarBirthdays.genAll proj now bs ys).2
      = bs.flatMap (fun b =>
          ys.filterMap (fun y =>
            if (proj y b.month b.day).isSome then none
            else some (LunarBirthdays.warningFor b))) := by
  intro bs ys
  induction bs with
  | nil => rfl
  | cons b bs ih =>
    simp [LunarBirthdays.genAll, eventsForYears_snd, ih, List.flatMap_cons]

/-- The events of the calendar returned by `generate_ics`, as one
filterMap over all (record, year) pairs in record-major order. -/
lemma generate_ics_events (proj : Int → Int → Int → Option Int) (now : Int)
    (bs : List Birthday) (s e : Int) :
    (LunarBirthdays.generate_ics proj now bs s e).1.events
      = bs.flatMap (fun b =>
          (intRangeIncl s e).filterMap
            (LunarBirthdays.create_birthday_event proj now b)) := by
  simp [LunarBirthdays.generate_ics, genAll_fst]

/-- The warnings of `generate_ics`, one per failing (record, year) pair in
record-major order. -/
lemma generate_ics_warnings (proj : Int → Int → Int → Option Int) (now : Int)
    (bs : List Birthday) (s e : Int) :
    (LunarBirthdays.generate_ics proj now bs s e).2
      = bs.flatMap (fun b =>
          (intRangeIncl s e).filterMap (fun y =>
            if (proj y b.month b.day).isSome then none
            else some (LunarBirthdays.warningFor b))) := by
  simp [LunarBirthdays.generate_ics, genAll_snd]

/-! ### Concrete fixtures used by witnesses and counterexamples -/

/-- A projection that reports every lunar date as non-existent. -/
def projFail : Int → Int → Int → Option Int := fun _ _ _ => none

/-- A projection that resolves every lunar date to solar day 42. -/
def projAll42 : Int → Int → Int → Option Int := fun _ _ _ => some 42

/-- An injective total projection, distinguishing year, month and day. -/
def projYMD : Int → Int → Int → Option Int :=
  fun y m d => some (y * 400 + m * 31 + d)

/-- Sample record A. -/
def recA : Birthday := { name := "A", year := 2000, month := 1, day := 1 }

/-- Sample record B. -/
def recB : Birthday := { name := "B", year := 2001, month := 2, day := 2 }

/-- Claim C2: a failing projection skips only its own (record, year) pair:
the events of `generate_ics` are exactly the successful projections over
all pairs, so no failure aborts the batch or suppresses other pairs;
moreover the window loop writes one file per planned window whose name
does not depend on the projection, and even under an all-failing
projection every window file is still produced, with zero events. -/
theorem batchGenerator_skips_only_failures
    (proj : Int → Int → Int → Option Int) (now : Int) (bs : List Birthday)
    (s e : Int) (pre : String) (start_year years batch_size : Int) :
    (LunarBirthdays.generate_ics proj now bs s e).1.events
      = bs.flatMap (fun b =>
          (intRangeIncl s e).filterMap
            (LunarBirthdays.create_birthday_event proj now b))
    ∧ (LunarBirthdays.mainRun proj now bs pre start_year years
          batch_size).map Prod.fst
      = (LunarBirthdays.mainWindows start_year years batch_size).map
          (fun w => LunarBirthdays.outputName pre w.1 w.2)
    ∧ (LunarBirthdays.mainRun projFail now bs pre start_year years
          batch_size).map (fun f => f.2.events)
      = (LunarBirthdays.mainWindows start_year years batch_size).map
          (fun _ => ([] : List Event)) := by
  refine ⟨generate_ics_events proj now bs s e, ?_, ?_⟩
  · unfold LunarBirthdays.mainRun LunarBirthdays.mainWindows
    rw [List.map_map, List.map_map]
    rfl
  · unfold LunarBirthdays.mainRun LunarBirthdays.mainWindows
    rw [List.map_map, List.map_map]
    apply List.map_congr_left
    intro y _
    simp only [Function.comp_apply]
    rw [generate_ics_events]
    simp [LunarBirthdays.create_birthday_event, projFail]

/-- Claim C3: when the projection of (record, year) succeeds with solar
date d, the synthesized event exists, is unique for that pair, and has
summary name + "'s birthday", start d and end d + 1. -/
theorem eventSynthesizer_exact (proj : Int → Int → Int → Option Int)
    (now : Int) (b : Birthday) (y d : Int)
    (h : proj y b.month b.day = some d) :
    LunarBirthdays.create_birthday_event proj now b y
      = some { summary := b.name ++ "\x27s birthday", dtstart := d,
               dtend := d + 1, rrule := none, dtstamp := now }
    ∧ (LunarBirthdays.create_birthday_event proj now b y).toList.length
        = 1 := by
  constructor
  · unfold LunarBirthdays.create_birthday_event
    rw [h]
    rfl
  · unfold LunarBirthdays.create_birthday_event
    rw [h]
    rfl

/-- Concrete instance of the event-synthesis property: record A projected
to solar day 42 yields exactly the expected event. -/
theorem eventSynthesizer_exact_witness :
    LunarBirthdays.create_birthday_event projAll42 0 recA 2025
      = some { summary := recA.name ++ "\x27s birthday", dtstart := 42,
               dtend := 42 + 1, rrule := none, dtstamp := 0 } :=
  (eventSynthesizer_exact projAll42 0 recA 2025 42 rfl).1

/-- Modelled from the spec: the warning the spec describes, identifying
the specific lunar year/month/day whose projection failed — that is, the
loop year being projected together with the record month and day. Used
only to compare against the warning the code actually prints. -/
def specWarning (b : Birthday) (failYear : Int) : String :=
  "Warning: Invalid lunar date: " ++ toString failYear ++ "-"
    ++ toString b.month ++ "-" ++ toString b.day

/-- Claim C4, counterexample: record A (lunar birth year 2000) failing to
project at loop year 2025 produces the warning naming 2000, not a warning
naming the failing year 2025. -/
theorem generator_warning_year_counterexample :
    (LunarBirthdays.generate_ics projFail 0 [recA] 2025 2025).2
      = ["Warning: Invalid lunar date: 2000-1-1"]
    ∧ (LunarBirthdays.generate_ics projFail 0 [recA] 2025 2025).2
      ≠ [specWarning recA 2025] := by
  constructor
  · decide
  · decide

/-- Length of a filterMap that keeps a constant for exactly the elements
failing a test. -/
lemma filterMap_if_length {α γ : Type _} (p : α → Bool) (c : γ) :
    ∀ l : List α,
      (l.filterMap (fun x => if p x then none else some c)).length
        = (l.filter (fun x => !p x)).length := by
  intro l
  induction l with
  | nil => rfl
  | cons x xs ih =>
    by_cases h : p x <;> simp [List.filterMap_cons, List.filter_cons, h, ih]

/-- Claim C4, amended: `generate_ics` emits exactly one warning per
(record, year) pair whose projection fails — the number of warnings equals
the number of failing projections — but each warning reports the lunar
birth year stored in the record together with its lunar month and day;
the specific projection year that failed is not included in the message. -/
theorem generator_warning_per_failure
    (proj : Int → Int → Int → Option Int) (now : Int) (bs : List Birthday)
    (s e : Int) :
    (LunarBirthdays.generate_ics proj now bs s e).2
      = bs.flatMap (fun b =>
          (intRangeIncl s e).filterMap (fun y =>
            if (proj y b.month b.day).isSome then none
            else some (LunarBirthdays.warningFor b)))
    ∧ (LunarBirthdays.generate_ics proj now bs s e).2.length
      = (bs.flatMap (fun b =>
          (intRangeIncl s e).filter
            (fun y => (proj y b.month b.day).isNone))).length := by
  refine ⟨generate_ics_warnings proj now bs s e, ?_⟩
  rw [generate_ics_warnings, List.length_flatMap, List.length_flatMap]
  congr 1
  apply List.map_congr_left
  intro b _
  simp only [Function.comp_apply]
  rw [filterMap_if_length]
  congr 1
  apply List.filter_congr
  intro y _
  cases proj y b.month b.day <;> rfl

/-- The event that `create_birthday_event` synthesizes for a pair whose
projection succeeds, written with a default for the impossible case. -/
def mkProjectedEvent (proj : Int → Int → Int → Option Int) (now : Int)
    (b : Birthday) (y : Int) : Event :=
  { summary := b.name ++ "\x27s birthday",
    dtstart := (proj y b.month b.day).getD 0,
    dtend := (proj y b.month b.day).getD 0 + 1,
    rrule := none, dtstamp := now }

/-- On a succeeding pair, `create_birthday_event` returns exactly the
projected event. -/
lemma create_eq_mkProjectedEvent (proj : Int → Int → Int → Option Int)
    (now : Int) (b : Birthday) (y : Int)
    (h : (proj y b.month b.day).isSome = true) :
    LunarBirthdays.create_birthday_event proj now b y
      = some (mkProjectedEvent proj now b y) := by
  rcases Option.isSome_iff_exists.mp h with ⟨d, hd⟩
  unfold LunarBirthdays.create_birthday_event mkProjectedEvent
  rw [hd]
  rfl

/-- A filterMap over a list on which the function always succeeds is the
map of the witnessing values. -/
lemma filterMap_eq_map_of_some {α β : Type _} (f : α → Option β)
    (g : α → β) : ∀ l : List α, (∀ a ∈ l, f a = some (g a)) →
      l.filterMap f = l.map g := by
  intro l
  induction l with
  | nil => intro _; rfl
  | cons x xs ih =>
    intro h
    rw [List.filterMap_cons_some (h x (List.mem_cons_self x xs)),
      List.map_cons, ih (fun a ha => h a (List.mem_cons_of_mem x ha))]

/-- Claim C5: when every projection in range succeeds, the events of the
container are the per-pair events in record-major order: records in input
order (outer), years in ascending range order (inner). -/
theorem generator_event_order (proj : Int → Int → Int → Option Int)
    (now : Int) (bs : List Birthday) (s e : Int)
    (h : ∀ b ∈ bs, ∀ y ∈ intRangeIncl s e,
      (proj y b.month b.day).isSome = true) :
    (LunarBirthdays.generate_ics proj now bs s e).1.events
      = bs.flatMap (fun b =>
          (intRangeIncl s e).map (mkProjectedEvent proj now b)) := by
  rw [generate_ics_events]
  apply List.flatMap_congr
  intro b hb
  exact filterMap_eq_map_of_some _ _ _
    (fun y hy => create_eq_mkProjectedEvent proj now b y (h b hb y hy))

/-- Concrete instance of the ordering property: records A then B over the
years 2025 and 2026 produce the events in the order A at 2025, A at 2026,
B at 2025, B at 2026. -/
theorem generator_event_order_witness :
    (LunarBirthdays.generate_ics projYMD 0 [recA, recB] 2025 2026).1.events
      = [mkProjectedEvent projYMD 0 recA 2025,
         mkProjectedEvent projYMD 0 recA 2026,
         mkProjectedEvent projYMD 0 recB 2025,
         mkProjectedEvent projYMD 0 recB 2026] := by
  have h := generator_event_order projYMD 0 [recA, recB] 2025 2026 (by decide)
  rw [h]
  decide

/-- A filterMap is strictly shorter than its list when the function fails
on some element. -/
lemma length_filterMap_lt {α β : Type _} (f : α → Option β) :
    ∀ (l : List α) (a : α), a ∈ l → f a = none →
      (l.filterMap f).length < l.length := by
  intro l
  induction l with
  | nil => intro a ha _; cases ha
  | cons x xs ih =>
    intro a ha hf
    rcases List.mem_cons.mp ha with rfl | hmem
    · rw [List.filterMap_cons_none hf]
      have := List.length_filterMap_le f xs
      simp only [List.length_cons]
      omega
    · cases hx : f x with
      | none =>
        rw [List.filterMap_cons_none hx]
        have := ih a hmem hf
        simp only [List.length_cons]
        omega
      | some b =>
        rw [List.filterMap_cons_some hx]
        have := ih a hmem hf
        simp only [List.length_cons]
        omega

/-- Claim C6: for startYear ≤ endYear the container holds at most
records × (endYear − startYear + 1) events, and strictly fewer as soon as
one projection in range fails. -/
theorem generator_event_count (proj : Int → Int → Int → Option Int)
    (now : Int) (bs : List Birthday) (s e : Int) (h : s ≤ e) :
    (LunarBirthdays.generate_ics proj now bs s e).1.events.length
      ≤ bs.length * (e - s + 1).toNat
    ∧ ((∃ b ∈ bs, ∃ y ∈ intRangeIncl s e, proj y b.month b.day = none) →
        (LunarBirthdays.generate_ics proj now bs s e).1.events.length
          < bs.length * (e - s + 1).toNat) := by
  have hn : (intRangeIncl s e).length = (e - s + 1).toNat := by
    simp only [intRangeIncl, List.length_map, List.length_range]
    omega
  rw [generate_ics_events]
  induction bs with
  | nil =>
    constructor
    · simp
    · rintro ⟨b, hb, -⟩
      cases hb
  | cons b bs ih =>
    rcases ih with ⟨ih1, ih2⟩
    have hhead : ((intRangeIncl s e).filterMap
        (LunarBirthdays.create_birthday_event proj now b)).length
          ≤ (e - s + 1).toNat := by
      rw [← hn]
      exact List.length_filterMap_le _ _
    constructor
    · rw [List.flatMap_cons, List.length_append]
      simp only [List.length_cons]
      rw [Nat.succ_mul]
      omega
    · rintro ⟨b2, hb2, y, hy, hfail⟩
      rcases List.mem_cons.mp hb2 with rfl | hmem
      · have h1 : ((intRangeIncl s e).filterMap
            (LunarBirthdays.create_birthday_event proj now b2)).length
              < (intRangeIncl s e).length := by
          apply length_filterMap_lt _ _ y hy
          unfold LunarBirthdays.create_birthday_event
          rw [hfail]
          rfl
        rw [hn] at h1
        rw [List.flatMap_cons, List.length_append]
        simp only [List.length_cons]
        rw [Nat.succ_mul]
        omega
      · have h2 := ih2 ⟨b2, hmem, y, hy, hfail⟩
        rw [List.flatMap_cons, List.length_append]
        simp only [List.length_cons]
        rw [Nat.succ_mul]
        omega

/-- Concrete instance of the strict count bound: one record over two years
with an all-failing projection yields strictly fewer than 1 × 2 events. -/
theorem generator_event_count_witness :
    (LunarBirthdays.generate_ics projFail 0 [recA] 2025 2026).1.events.length
      < [recA].length * ((2026 : Int) - 2025 + 1).toNat :=
  (generator_event_count projFail 0 [recA] 2025 2026 (by decide)).2 (by decide)

/-! ### Loader abort and command-line behavior -/

/-- A CSV row whose three numeric fields all parse as integers. -/
def rowOk (r : RawRow) : Bool :=
  (pyInt r.year).isSome && (pyInt r.month).isSome && (pyInt r.day).isSome

/-- The fatal-load condition of the claim: the CSV file is missing, or
some row has a field that does not parse as an integer. -/
def loadFails : CsvFile → Bool
  | .missing => true
  | .rows rs => rs.any (fun r => !rowOk r)

/-- A row with an unparsable field makes `parseRow` raise the model of
`ValueError`. -/
lemma parseRow_error_of_not_ok (r : RawRow) (h : rowOk r = false) :
    parseRow r = .error .invalidData := by
  unfold rowOk at h
  unfold parseRow
  cases hy : pyInt r.year <;> cases hm : pyInt r.month <;>
    cases hd : pyInt r.day <;> simp [hy, hm, hd] at h ⊢

/-- A fully parsable row yields a record. -/
lemma parseRow_ok_of_ok (r : RawRow) (h : rowOk r = true) :
    ∃ b, parseRow r = .ok b := by
  unfold rowOk at h
  cases hy : pyInt r.year with
  | none => simp [hy] at h
  | some y =>
    cases hm : pyInt r.month with
    | none => simp [hy, hm] at h
    | some m =>
      cases hd : pyInt r.day with
      | none => simp [hy, hm, hd] at h
      | some d =>
        refine ⟨{ name := r.name, year := y, month := m, day := d }, ?_⟩
        unfold parseRow
        rw [hy, hm, hd]

/-- One bad row anywhere in the file aborts the whole load with a
`ValueError`, regardless of how many rows parsed before or after it. -/
lemma loadRows_error_of_any (rs : List RawRow)
    (h : rs.any (fun r => !rowOk r) = true) :
    loadRows rs = .error LoadError.invalidData := by
  induction rs with
  | nil => simp at h
  | cons r rest ih =>
    by_cases hr : rowOk r = true
    · rcases parseRow_ok_of_ok r hr with ⟨b, hb⟩
      have hrest : rest.any (fun r => !rowOk r) = true := by
        rw [List.any_cons, hr] at h
        simpa using h
      unfold loadRows
      rw [hb, ih hrest]
    · have hfalse : rowOk r = false := by
        revert hr
        cases rowOk r <;> simp
      unfold loadRows
      rw [parseRow_error_of_not_ok r hfalse]

/-- Claim C7: a missing CSV file or any row with an unparsable numeric
field aborts the whole run: the loader returns no record list (not even a
partial one), and `main` exits with status 1 having written zero output
files. -/
theorem loader_aborts (proj : Int → Int → Int → Option Int) (now : Int)
    (f : CsvFile) (pre : String) (start_year years batch_size : Int)
    (h : loadFails f = true) :
    (read_lunar_birthdays f).isOk = false
    ∧ LunarBirthdays.mainFull proj now f pre start_year years batch_size
        = { exitCode := 1, files := [] } := by
  have herr : ∃ err, read_lunar_birthdays f = .error err := by
    cases f with
    | missing => exact ⟨.fileNotFound, rfl⟩
    | rows rs =>
      refine ⟨.invalidData, ?_⟩
      exact loadRows_error_of_any rs (by simpa [loadFails] using h)
  rcases herr with ⟨err, herr⟩
  constructor
  · rw [herr]
    rfl
  · unfold LunarBirthdays.mainFull
    rw [herr]

/-- A CSV row whose day field is not numeric. -/
def rowBadDay : RawRow :=
  { name := "A", year := "2000", month := "1", day := "x" }

/-- Concrete instance of the loader abort: a row whose day field is the
string x exits with status 1 and zero files written. -/
theorem loader_aborts_witness :
    loadFails (CsvFile.rows [rowBadDay]) = true
    ∧ LunarBirthdays.mainFull projFail 0 (CsvFile.rows [rowBadDay])
        "out" 2024 50 50
        = { exitCode := 1, files := [] } :=
  ⟨by decide,
   (loader_aborts projFail 0 (CsvFile.rows [rowBadDay]) "out" 2024 50 50
      (by decide)).2⟩

/-- Claim C8: the file written for a window is named prefix_year.ics when
the window is a single year and prefix_start-end.ics otherwise, and the
window loop uses exactly these names for its planned windows. -/
theorem fileBatcher_names (pre : String) (y e : Int)
    (proj : Int → Int → Int → Option Int) (now : Int) (bs : List Birthday)
    (start_year years batch_size : Int) :
    (y = e → LunarBirthdays.outputName pre y e
        = pre ++ "_" ++ toString y ++ ".ics")
    ∧ (y ≠ e → LunarBirthdays.outputName pre y e
        = pre ++ "_" ++ toString y ++ "-" ++ toString e ++ ".ics")
    ∧ (LunarBirthdays.mainRun proj now bs pre start_year years
          batch_size).map Prod.fst
      = (LunarBirthdays.mainWindows start_year years batch_size).map
          (fun w => LunarBirthdays.outputName pre w.1 w.2) := by
  refine ⟨?_, ?_, ?_⟩
  · intro he
    simp [LunarBirthdays.outputName, he]
  · intro he
    simp [LunarBirthdays.outputName, he]
  · unfold LunarBirthdays.mainRun LunarBirthdays.mainWindows
    rw [List.map_map, List.map_map]
    rfl

/-- Concrete instances of the naming rule: a one-year window has no range
dash, a multi-year window has one. -/
theorem fileBatcher_names_witness :
    LunarBirthdays.outputName "x" 2024 2024
        = "x" ++ "_" ++ toString (2024 : Int) ++ ".ics"
    ∧ LunarBirthdays.outputName "x" 2124 2143
        = "x" ++ "_" ++ toString (2124 : Int) ++ "-"
            ++ toString (2143 : Int) ++ ".ics" :=
  ⟨(fileBatcher_names "x" 2024 2024 projFail 0 [] 0 0 0).1 rfl,
   (fileBatcher_names "x" 2124 2143 projFail 0 [] 0 0 0).2.1 (by decide)⟩

/-- The record loop of `generate_ics_file` concatenates, in record order,
the at-most-one event each record contributes. -/
lemma genRecords_fst (proj : Int → Int → Int → Option Int) (now : Int) :
    ∀ bs : List Birthday,
    (MainPy.genRecords proj now bs).1
      = bs.flatMap
          (fun r => (MainPy.create_birthday_event proj now r).toList) := by
  intro bs
  induction bs with
  | nil => rfl
  | cons b bs ih =>
    cases h : MainPy.create_birthday_event proj now b with
    | none => simp [MainPy.genRecords, h, ih]
    | some ev => simp [MainPy.genRecords, h, ih]

/-- Claim C9: in single-conversion mode a record whose projection succeeds
contributes exactly one event (not one per year), carrying the yearly
repeat rule, with its start the projection of the record own year field;
the output events are the concatenation of these singletons. -/
theorem singleMode_one_event (proj : Int → Int → Int → Option Int)
    (now : Int) (b : Birthday) (d : Int)
    (h : proj b.year b.month b.day = some d) :
    (MainPy.create_birthday_event proj now b).toList
      = [{ summary := b.name ++ "\x27s birthday", dtstart := d,
           dtend := d + 1, rrule := some "yearly", dtstamp := now }]
    ∧ ∀ bs : List Birthday,
        (MainPy.generate_ics_file proj now bs).1.events
          = bs.flatMap
              (fun r => (MainPy.create_birthday_event proj now r).toList) := by
  constructor
  · unfold MainPy.create_birthday_event
    rw [h]
    rfl
  · intro bs
    simp [MainPy.generate_ics_file, genRecords_fst]

/-- Concrete instance of the single-conversion property: record A with a
succeeding projection yields exactly one yearly-recurring event. -/
theorem singleMode_one_event_witness :
    (MainPy.create_birthday_event projAll42 0 recA).toList
      = [{ summary := recA.name ++ "\x27s birthday", dtstart := 42,
           dtend := 42 + 1, rrule := some "yearly", dtstamp := 0 }] :=
  (singleMode_one_event projAll42 0 recA 42 rfl).1

/-- Claim C10: in batch mode, a non-positive years count (with a positive
batch size) makes the window loop run zero iterations after a successful
load: no files are written and the process exits with status 0. -/
theorem batch_nonpositive_years (proj : Int → Int → Int → Option Int)
    (now : Int) (f : CsvFile) (bs : List Birthday) (pre : String)
    (start_year years batch_size : Int) (hy : years ≤ 0)
    (_hb : 0 < batch_size)
    (hok : read_lunar_birthdays f = Except.ok bs) :
    LunarBirthdays.mainFull proj now f pre start_year years batch_size
      = { exitCode := 0, files := [] } := by
  unfold LunarBirthdays.mainFull
  rw [hok]
  have h0 : years.toNat = 0 := by omega
  simp [LunarBirthdays.mainRun, h0, pyRangeAux]

/-- Concrete instance: years = -3 with an empty (successfully loaded) CSV
exits 0 with zero files. -/
theorem batch_nonpositive_years_witness :
    LunarBirthdays.mainFull projFail 0 (CsvFile.rows []) "out" 2024 (-3) 50
      = { exitCode := 0, files := [] } :=
  batch_nonpositive_years projFail 0 (CsvFile.rows []) [] "out" 2024 (-3) 50
    (by decide) (by decide) rfl
